import Mathlib

/-!
# Token lifecycle and request-authorization core: a shallow embedding

This file embeds, in Lean 4, the token lifecycle and request-authorization
core of the `evaluv` resume-evaluation backend:

* the Redis-backed fixed-window rate limiter
  (`app/utils/redis_client.py`, `RedisClient.check_rate_limit`, and
  `app/middleware/rate_limit.py`, `RateLimitMiddleware.dispatch`);
* the authentication middleware / request gate
  (`app/middleware/auth_middleware.py`, `AuthMiddleware.dispatch`);
* the session/revocation store, in both its key-value form
  (`RedisClient.blacklist_token` / `is_token_blacklisted`) and its
  relational form (`app/services/auth_service.py`, `AuthService`);
* the token codec (`app/utils/security.py` — absent from the sources,
  modelled from the specification);
* the admin user-deactivation operation
  (`app/controllers/user_controller.py`, `UserController.delete_user`) and
  the token-refresh operation
  (`app/controllers/auth_controller.py`, `AuthController.refresh_token`).

Time is modelled in whole unix seconds as `Nat`; quantities that the Python
code computes with unbounded integers (counts, limits, remaining budgets,
TTLs) are modelled as `Int` where a subtraction may go negative.  Stores are
association lists from keys to values paired with an absolute expiry
instant; a key is live at instant `t` exactly when `t` is strictly below its
expiry, mirroring Redis `SETEX`/`EXISTS`/`TTL` semantics at one-second
granularity.
-/

/-! ## Rate limiter: `RedisClient.check_rate_limit` -/

/-- One Redis entry backing `ratelimit:{identifier}`: the window counter
together with the absolute instant at which the key expires. -/
structure RateEntry where
  count : Nat
  expiry : Nat
  deriving Repr, DecidableEq

/-- The rate-limiter slice of the Redis keyspace: identifier ↦ entry. -/
abbrev RateStore := List (String × RateEntry)

/-- The dictionary returned by `RedisClient.check_rate_limit`:
`{"allowed": …, "remaining": …, "reset": …}`. -/
structure RateResult where
  allowed : Bool
  remaining : Int
  reset : Int
  deriving Repr, DecidableEq

/-- Redis `EXISTS`/`GET` for a rate key at instant `now`: the stored entry,
provided it has not yet expired. -/
def rateLookup (st : RateStore) (now : Nat) (id : String) : Option RateEntry :=
  match st.find? (fun p => p.1 = id) with
  | some p => if now < p.2.expiry then some p.2 else none
  | none => none

/-- Redis `SETEX`-style write of a rate entry: the key's previous binding
(if any) is replaced. -/
def rateSet (st : RateStore) (id : String) (e : RateEntry) : RateStore :=
  (id, e) :: st.filter (fun p => p.1 ≠ id)

namespace RedisClient

/-- Embedding of `RedisClient.check_rate_limit(identifier, limit, window)`
from `app/utils/redis_client.py`.  `now` is the Redis server time
(`TIME`, seconds part).  If the key is absent the counter is set to `1`
with TTL `window` and the request is allowed with `remaining = limit - 1`;
otherwise the counter is atomically incremented, the remaining TTL is
read, and the request is denied with `remaining = 0` when the incremented
count exceeds `limit`, else allowed with `remaining = limit - count + 1`. -/
def check_rate_limit (st : RateStore) (now : Nat) (id : String)
    (limit : Int) (window : Nat) : RateResult × RateStore :=
  match rateLookup st now id with
  | none =>
      ({ allowed := true, remaining := limit - 1,
         reset := (now : Int) + window },
       rateSet st id ⟨1, now + window⟩)
  | some e =>
      let count := e.count + 1
      let st' := rateSet st id ⟨count, e.expiry⟩
      let ttl : Int := (e.expiry : Int) - now
      if (count : Int) > limit then
        ({ allowed := false, remaining := 0, reset := (now : Int) + ttl }, st')
      else
        ({ allowed := true, remaining := limit - count + 1,
           reset := (now : Int) + ttl }, st')

end RedisClient

/-! ## Rate-limit middleware: `RateLimitMiddleware.dispatch` -/

/-- The response fields that the rate-limit middleware manipulates: the
status code produced by the downstream handler and the rate-limit
headers.  `retryAfter` is `none` when no `Retry-After` header is set. -/
structure HttpResponse where
  status : Nat
  limitHdr : Int
  remainingHdr : Int
  resetHdr : Int
  windowHdr : Int
  retryAfter : Option Int
  deriving Repr, DecidableEq

namespace RateLimitMiddleware

/-- Embedding of `RateLimitMiddleware.dispatch` from
`app/middleware/rate_limit.py`.  `outcome` is the result of the
`check_rate_limit` store call, `Except.error` when the call raised.  In
the success branch the handler (`call_next`) runs and the headers are set
from the store result, with `remaining` clamped at `0`; the `allowed`
flag is never consulted and no `Retry-After` header is ever produced.  In
the exception branch the middleware fails open: the handler still runs
and synthetic headers report `limit - 1` remaining. -/
def dispatch (outcome : Except Unit RateResult) (limit : Int)
    (window : Nat) (now : Nat) (handlerStatus : Nat) : HttpResponse :=
  match outcome with
  | .ok r =>
      { status := handlerStatus, limitHdr := limit,
        remainingHdr := max 0 r.remaining, resetHdr := r.reset,
        windowHdr := (window : Int), retryAfter := none }
  | .error _ =>
      { status := handlerStatus, limitHdr := limit,
        remainingHdr := limit - 1, resetHdr := (now : Int) + window,
        windowHdr := (window : Int), retryAfter := none }

end RateLimitMiddleware

/-- Runs `n` consecutive requests from identifier `id` through
`RedisClient.check_rate_limit`, all at server time `now` (hence all inside
one window), threading the store and collecting the per-request results
in order. -/
def runRequests (st : RateStore) (now : Nat) (id : String) (limit : Int)
    (window : Nat) : Nat → List RateResult × RateStore
  | 0 => ([], st)
  | n + 1 =>
      let (r, st') := RedisClient.check_rate_limit st now id limit window
      let (rs, st'') := runRequests st' now id limit window n
      (r :: rs, st'')

/-! ## Authentication middleware: `AuthMiddleware.dispatch` -/

/-- The claims of a decoded access-token payload, as read by the gate
(`payload.get("sub")`, `payload.get("user_id")`, `payload.get("role")`,
`payload.get("jti")`). -/
structure TokenPayload where
  sub : String
  user_id : String
  role : String
  jti : String
  deriving Repr, DecidableEq

/-- The request-scoped identity the gate attaches on success:
`request.state.user = {"id": …, "role": …, "sub": …}`. -/
structure AuthedUser where
  id : String
  role : String
  sub : String
  deriving Repr, DecidableEq

/-- `auth_header.startswith("Bearer ")`: the header's first seven
characters are exactly the bearer scheme prefix. -/
def startsWithBearer (h : String) : Bool :=
  h.data.take 7 = "Bearer ".data

/-- `auth_header[7:]`: the header with the seven-character bearer scheme
prefix removed. -/
def dropBearer (h : String) : String :=
  String.mk (h.data.drop 7)

namespace AuthMiddleware

/-- Embedding of `AuthMiddleware.dispatch` from
`app/middleware/auth_middleware.py`.  `authHeader` is the raw
`Authorization` header (if present), `verifyFn` abstracts
`verify_token` (returning `none` on a bad signature or expired token),
`blacklistedFn` abstracts `AuthService.is_token_blacklisted`, and
`handler` is `call_next`, given the identity attached to the request
state (or `none`).  Returns the response status together with the
identity that was attached.  Only a verified-but-blacklisted token is
rejected (401) by the gate itself; a missing, malformed or unverifiable
token leaves the request unauthenticated and forwards it. -/
def dispatch (authHeader : Option String)
    (verifyFn : String → Option TokenPayload)
    (blacklistedFn : String → Bool)
    (handler : Option AuthedUser → Nat) : Nat × Option AuthedUser :=
  match authHeader with
  | some h =>
      if startsWithBearer h then
        let token := dropBearer h
        match verifyFn token with
        | some payload =>
            if blacklistedFn payload.jti then
              (401, none)
            else
              let user : AuthedUser :=
                ⟨payload.user_id, payload.role, payload.sub⟩
              (handler (some user), some user)
        | none => (handler none, none)
      else (handler none, none)
  | none => (handler none, none)

end AuthMiddleware

/-! ## Key-value session/revocation store: `RedisClient` blacklist -/

/-- The JSON document stored under `blacklist:token:{jti}`:
`{"jti": …, "user_id": …, "expires_at": …}`. -/
structure BlacklistDoc where
  jti : String
  user_id : String
  expires_at : Int
  deriving Repr, DecidableEq

/-- The blacklist slice of the Redis keyspace: key ↦ (document, absolute
expiry instant of the key). -/
abbrev BlacklistStore := List (String × BlacklistDoc × Nat)

/-- The Redis key `blacklist:token:{jti}`. -/
def blacklistKey (jti : String) : String := "blacklist:token:" ++ jti

/-- The TTL computed by `RedisClient.blacklist_token`:
`max(1, int(expires_at - time.time()))`, at one-second granularity. -/
def blacklistTtl (now : Nat) (expiresAt : Int) : Int :=
  max 1 (expiresAt - (now : Int))

namespace RedisClient

/-- Embedding of `RedisClient.blacklist_token(jti, user_id, expires_at)`
from `app/utils/redis_client.py`: `SETEX` of the JSON document under
`blacklist:token:{jti}` with TTL `max(1, expires_at - now)`. -/
def blacklist_token (st : BlacklistStore) (now : Nat) (jti user_id : String)
    (expiresAt : Int) : BlacklistStore :=
  let ttl := blacklistTtl now expiresAt
  (blacklistKey jti, ⟨jti, user_id, expiresAt⟩, now + ttl.toNat) ::
    st.filter (fun p => p.1 ≠ blacklistKey jti)

/-- Embedding of `RedisClient.is_token_blacklisted(jti)`: Redis `EXISTS`
on `blacklist:token:{jti}` at instant `now` (a key counts as present
exactly while it has not expired). -/
def is_token_blacklisted (st : BlacklistStore) (now : Nat) (jti : String) :
    Bool :=
  match st.find? (fun p => p.1 = blacklistKey jti) with
  | some p => now < p.2.2
  | none => false

/-- The absolute expiry instant Redis holds for `key`, when present. -/
def storeExpiry (st : BlacklistStore) (key : String) : Option Nat :=
  (st.find? (fun p => p.1 = key)).map (fun p => p.2.2)

end RedisClient

/-! ## Token codec (`app/utils/security.py`) -/

/-- The claim set carried by an access token: subject id, user id, role
and the unique token id (`jti`). -/
structure TokenClaims where
  sub : String
  user_id : String
  role : String
  jti : String
  deriving Repr, DecidableEq

/-- A signed token: the claim set, issued-at and expiry instants, and the
signature over all of them. -/
structure SignedToken where
  claims : TokenClaims
  iat : Nat
  exp : Nat
  sig : Nat
  deriving Repr, DecidableEq

/-- Modelled from the spec: `app/utils/security.py` (imported by the
middleware, services and controllers as `create_access_token` /
`verify_token`) is not among the sources; §4.1 of the specification fixes
its contract.  The signature is a keyed digest of the claim set and the
`iat`/`exp` instants; signing key and algorithm are process-wide
configuration, represented by `secret`. -/
def signature (secret : Nat) (c : TokenClaims) (iat exp : Nat) : Nat :=
  let h := mixHash (mixHash c.sub.hash c.user_id.hash)
    (mixHash c.role.hash c.jti.hash)
  (mixHash (mixHash h (UInt64.ofNat secret))
    (mixHash (UInt64.ofNat iat) (UInt64.ofNat exp))).toNat

/-- Modelled from the spec: `issue(claims, ttl) -> token` of §4.1 —
`create_access_token` in the missing `app/utils/security.py`.  Produces a
signed token with `issued-at = now` and `expiry = now + ttl`. -/
def issue (secret : Nat) (c : TokenClaims) (now ttl : Nat) : SignedToken :=
  { claims := c, iat := now, exp := now + ttl,
    sig := signature secret c now (now + ttl) }

/-- Modelled from the spec: `verify(token) -> claims | invalid` of §4.1 —
`verify_token` in the missing `app/utils/security.py`.  Checks signature
validity and that the current time is strictly below the expiry; returns
the decoded claim set only if both checks pass, and `none` (invalid)
otherwise — it never throws into business logic. -/
def verify (secret : Nat) (t : SignedToken) (now : Nat) : Option TokenClaims :=
  if t.sig = signature secret t.claims t.iat t.exp ∧ now < t.exp then
    some t.claims
  else
    none

/-! ## Relational session/revocation store: `AuthService` -/

/-- A row of the `refresh_tokens` table (`app/models/token.py`,
`RefreshToken`): the opaque token string (unique), the owning user, the
absolute expiry and the active flag (default `true`). -/
structure RefreshRow where
  token : String
  user_id : String
  expires_at : Nat
  is_active : Bool
  deriving Repr, DecidableEq

namespace AuthService

/-- Embedding of `AuthService.create_refresh_token(user_id)` from
`app/services/auth_service.py`: inserts a row for a freshly generated
opaque token (`uuid.uuid4()`, passed in as `fresh`) with
`expires_at = now + 7 days` and returns the token.  The caller guarantees
freshness of `fresh`, as `uuid4` does in the source. -/
def create_refresh_token (db : List RefreshRow) (now : Nat)
    (fresh : String) (user_id : String) : List RefreshRow × String :=
  (db ++ [⟨fresh, user_id, now + 7 * 24 * 60 * 60, true⟩], fresh)

/-- Embedding of `AuthService.validate_refresh_token(token)`: selects the
first row whose token matches, which is active, and whose expiry is
strictly in the future, returning its `user_id`; otherwise `none`. -/
def validate_refresh_token (db : List RefreshRow) (now : Nat)
    (token : String) : Option String :=
  (db.find? (fun r =>
    r.token = token ∧ r.is_active = true ∧ now < r.expires_at)).map
    (fun r => r.user_id)

/-- `revoke_refresh_token`'s row update: clears `is_active` on the first
row whose token matches, leaving the rest of the table unchanged. -/
def deactivateFirst : List RefreshRow → String → List RefreshRow
  | [], _ => []
  | r :: rs, token =>
      if r.token = token then { r with is_active := false } :: rs
      else r :: deactivateFirst rs token

/-- Embedding of `AuthService.revoke_refresh_token(token)`: fetches the
first row whose token matches and, when present, sets
`is_active = false`; revoking an absent token changes nothing. -/
def revoke_refresh_token (db : List RefreshRow) (token : String) :
    List RefreshRow :=
  deactivateFirst db token

end AuthService

/-! ## User deactivation: `UserController.delete_user` -/

/-- A row of the `users` table, restricted to the fields the deactivation
operation touches. -/
structure UserRow where
  id : String
  is_active : Bool
  deriving Repr, DecidableEq

namespace UserController

/-- The outcome of `UserController.delete_user`. -/
inductive DeleteOutcome where
  | ok
  | unauthorized
  | forbidden
  | invalidOperation
  | notFound
  deriving Repr, DecidableEq

/-- The HTTP status code each outcome is surfaced with:
`InsufficientPermissionsException` is 403, the self-deletion guard raises
`HTTP_400_BAD_REQUEST` ("Cannot delete your own account"),
`UserNotFoundException` is 404. -/
def DeleteOutcome.statusCode : DeleteOutcome → Nat
  | .ok => 200
  | .unauthorized => 401
  | .forbidden => 403
  | .invalidOperation => 400
  | .notFound => 404

/-- Embedding of `UserController.delete_user(user_id, request)` from
`app/controllers/user_controller.py`.  `identity` is
`request.state.user` (absent when unauthenticated), `targetId` is
`str(user_id)`.  Checks, in order: authentication, the admin role, the
self-deletion guard (`identity.id == str(user_id)` → 400), target
existence; only then flips `is_active` to `false` on the target row.
Returns the outcome and the resulting table. -/
def delete_user (identity : Option AuthedUser) (targetId : String)
    (db : List UserRow) : DeleteOutcome × List UserRow :=
  match identity with
  | none => (.unauthorized, db)
  | some u =>
      if u.role ≠ "admin" then (.forbidden, db)
      else if u.id = targetId then (.invalidOperation, db)
      else
        match db.find? (fun r => r.id = targetId) with
        | none => (.notFound, db)
        | some _ =>
            (.ok, db.map (fun r =>
              if r.id = targetId then { r with is_active := false } else r))

end UserController

/-! ## Token refresh: `AuthController.refresh_token` -/

namespace AuthController

/-- Embedding of `AuthController.refresh_token(refresh_request)` from
`app/controllers/auth_controller.py`, restricted to its effect on the
refresh-token table.  Steps, in source order: validate the presented
token (`InvalidCredentials` on failure, modelled as `none`); look up the
user (`UserNotFound` on failure); generate new tokens — which stores a
fresh refresh token `fresh` via `AuthService.create_refresh_token` (the
accompanying access token is issued by the missing
`app/utils/security.py` and does not touch this table); finally revoke
the old refresh token.  On success returns the new refresh token and the
resulting table. -/
def refresh_token (db : List RefreshRow) (users : List UserRow) (now : Nat)
    (oldToken fresh : String) : Option (String × List RefreshRow) :=
  match AuthService.validate_refresh_token db now oldToken with
  | none => none
  | some user_id =>
      match users.find? (fun r => r.id = user_id) with
      | none => none
      | some _ =>
          let res := AuthService.create_refresh_token db now fresh user_id
          some (res.2, AuthService.revoke_refresh_token res.1 oldToken)

end AuthController

/-! ## Helper lemmas -/

/-- `find?` skips a prefix on which the predicate is everywhere false. -/
theorem find?_append_of_forall_false {α} (p : α → Bool) (l₁ l₂ : List α)
    (h : ∀ a ∈ l₁, p a = false) : (l₁ ++ l₂).find? p = l₂.find? p := by
  induction l₁ with
  | nil => rfl
  | cons a l ih =>
      have ha := h a (List.mem_cons_self a l)
      simp only [List.cons_append, List.find?_cons, ha]
      exact ih (fun b hb => h b (List.mem_cons_of_mem a hb))

/-- `deactivateFirst` skips a prefix holding no row with the given token. -/
theorem deactivateFirst_append_of_forall_ne (l₁ l₂ : List RefreshRow)
    (tok : String) (h : ∀ r ∈ l₁, r.token ≠ tok) :
    AuthService.deactivateFirst (l₁ ++ l₂) tok =
      l₁ ++ AuthService.deactivateFirst l₂ tok := by
  induction l₁ with
  | nil => rfl
  | cons a l ih =>
      have ha := h a (List.mem_cons_self a l)
      simp only [List.cons_append, AuthService.deactivateFirst, if_neg ha,
        List.cons.injEq, true_and]
      exact ih (fun b hb => h b (List.mem_cons_of_mem a hb))

/-- When a table holds at most one row with a given token, every row of
that token surviving `deactivateFirst` is inactive. -/
theorem deactivateFirst_inactive (l : List RefreshRow) (tok : String)
    (huniq : (l.filter (fun r => r.token = tok)).length ≤ 1) :
    ∀ r ∈ AuthService.deactivateFirst l tok, r.token = tok →
      r.is_active = false := by
  induction l with
  | nil => intro r hr; cases hr
  | cons a l ih =>
      intro r hr htok
      by_cases ha : a.token = tok
      · simp only [AuthService.deactivateFirst, if_pos ha] at hr
        rcases List.mem_cons.mp hr with h | h
        · subst h; rfl
        · exfalso
          have hfa : (List.filter (fun r => decide (r.token = tok)) (a :: l)) =
              a :: List.filter (fun r => decide (r.token = tok)) l := by
            simp [List.filter_cons, ha]
          rw [hfa] at huniq
          simp only [List.length_cons] at huniq
          have hempty := List.length_eq_zero.mp
            (Nat.le_zero.mp (Nat.le_of_succ_le_succ huniq))
          have : r ∈ List.filter (fun r => decide (r.token = tok)) l :=
            List.mem_filter.mpr ⟨h, by simp [htok]⟩
          rw [hempty] at this
          cases this
      · simp only [AuthService.deactivateFirst, if_neg ha] at hr
        rcases List.mem_cons.mp hr with h | h
        · subst h; exact absurd htok ha
        · refine ih ?_ r h htok
          have hfa : (List.filter (fun r => decide (r.token = tok)) (a :: l)) =
              List.filter (fun r => decide (r.token = tok)) l := by
            simp [List.filter_cons, ha]
          rw [hfa] at huniq
          exact huniq

/-! ## Claim theorems -/

set_option maxRecDepth 4000 in
/-- Claim C1 (evidence of the divergence): with `limit = 100` and
`window = 3600`, of 101 requests from the same identifier within one
window the store check allows the first 100 and denies the 101st
(`allowed = false`, `remaining = 0`); yet `RateLimitMiddleware.dispatch`
on that denied result still returns the downstream handler's status
(200 here) with no `Retry-After` header — no 429 rejection is ever
produced, because the middleware never consults the `allowed` flag. -/
theorem rate_limit_101st_request_not_rejected :
    ((runRequests [] 1000 "c" 100 3600 101).1.take 100).all
        (fun r => r.allowed) = true ∧
    (runRequests [] 1000 "c" 100 3600 101).1.getLast? =
      some { allowed := false, remaining := 0, reset := 4600 } ∧
    RateLimitMiddleware.dispatch
        (.ok { allowed := false, remaining := 0, reset := 4600 })
        100 3600 1000 200 =
      { status := 200, limitHdr := 100, remainingHdr := 0, resetHdr := 4600,
        windowHdr := 3600, retryAfter := none } ∧
    (RateLimitMiddleware.dispatch
        (.ok { allowed := false, remaining := 0, reset := 4600 })
        100 3600 1000 200).status ≠ 429 ∧
    (RateLimitMiddleware.dispatch
        (.ok { allowed := false, remaining := 0, reset := 4600 })
        100 3600 1000 200).retryAfter = none := by
  decide

/-- Claim C6 (counterexample): with the window counter live at value 1,
the incremented count is 2 and the code allows the request reporting
`remaining = 99 = limit - count + 1`, not `limit - count = 98` as the
claim states. -/
theorem check_rate_limit_remaining_off_by_one :
    (RedisClient.check_rate_limit [("c", ⟨1, 2000⟩)] 1000 "c" 100 3600).2 =
      [("c", ⟨2, 2000⟩)] ∧
    (RedisClient.check_rate_limit [("c", ⟨1, 2000⟩)] 1000 "c" 100 3600).1 =
      { allowed := true, remaining := 99, reset := 2000 } ∧
    (99 : Int) ≠ 100 - 2 := by
  decide

/-- Claim C6 (amended): for every request whose window counter already
exists (a live entry of count `c`) and whose incremented count
`c + 1` does not exceed the limit, the rate limiter allows the request
and reports `remaining = limit - count + 1` (where `count = c + 1` is
the counter value after the increment). -/
theorem check_rate_limit_existing_counter_allowed (st : RateStore)
    (now : Nat) (id : String) (limit : Int) (window : Nat) (e : RateEntry)
    (hlook : rateLookup st now id = some e)
    (hle : ((e.count + 1 : Nat) : Int) ≤ limit) :
    (RedisClient.check_rate_limit st now id limit window).1 =
      { allowed := true,
        remaining := limit - ((e.count + 1 : Nat) : Int) + 1,
        reset := (now : Int) + ((e.expiry : Int) - now) } := by
  unfold RedisClient.check_rate_limit
  rw [hlook]
  simp only [if_neg (not_lt.mpr hle)]

/-- Claim C6 (amended, witness): the amended statement at the concrete
counterexample input. -/
theorem check_rate_limit_existing_counter_allowed_witness :
    rateLookup [("c", ⟨1, 2000⟩)] 1000 "c" = some ⟨1, 2000⟩ ∧
    ((1 + 1 : Nat) : Int) ≤ 100 ∧
    (RedisClient.check_rate_limit [("c", ⟨1, 2000⟩)] 1000 "c" 100 3600).1 =
      { allowed := true, remaining := 100 - ((1 + 1 : Nat) : Int) + 1,
        reset := (1000 : Int) + ((2000 : Int) - 1000) } :=
  ⟨by decide, by decide,
    check_rate_limit_existing_counter_allowed [("c", ⟨1, 2000⟩)] 1000 "c"
      100 3600 ⟨1, 2000⟩ (by decide) (by decide)⟩

/-- Claim C7: when the rate-limit store call raises, the middleware fails
open — the downstream handler still runs (the response keeps its status)
and the synthetic headers report `limit - 1` remaining. -/
theorem rate_limit_fail_open (limit : Int) (window now handlerStatus : Nat) :
    (RateLimitMiddleware.dispatch (.error ()) limit window now
        handlerStatus).status = handlerStatus ∧
    (RateLimitMiddleware.dispatch (.error ()) limit window now
        handlerStatus).remainingHdr = limit - 1 ∧
    (RateLimitMiddleware.dispatch (.error ()) limit window now
        handlerStatus).retryAfter = none :=
  ⟨rfl, rfl, rfl⟩

/-- Claim C2 (counterexample): a request carrying the well-formed bearer
header "Bearer deadbeef" whose token fails verification is not rejected
with 401 — the gate forwards it to the route handler (whose status, 299
here, becomes the response status) with no identity attached. -/
theorem invalid_token_reaches_handler :
    AuthMiddleware.dispatch (some "Bearer deadbeef") (fun _ => none)
        (fun _ => false) (fun _ => 299) = (299, none) ∧
    (299 : Nat) ≠ 401 := by
  constructor
  · decide
  · decide

/-- Claim C2 (amended): for every request carrying a well-formed bearer
Authorization header whose token fails verification, the request gate
does not reject the request; it forwards it to the route handler with no
identity attached (the handler runs unauthenticated), leaving rejection
to each operation's own policy check. -/
theorem invalid_token_forwarded_unauthenticated (h : String)
    (verifyFn : String → Option TokenPayload)
    (blacklistedFn : String → Bool) (handler : Option AuthedUser → Nat)
    (hwf : startsWithBearer h = true)
    (hfail : verifyFn (dropBearer h) = none) :
    AuthMiddleware.dispatch (some h) verifyFn blacklistedFn handler =
      (handler none, none) := by
  unfold AuthMiddleware.dispatch
  simp [hwf, hfail]

/-- Claim C2 (amended, witness): the amended statement at the concrete
header "Bearer deadbeef" with a verifier rejecting every token. -/
theorem invalid_token_forwarded_unauthenticated_witness :
    startsWithBearer "Bearer deadbeef" = true ∧
    AuthMiddleware.dispatch (some "Bearer deadbeef") (fun _ => none)
        (fun _ => false) (fun _ => 200) = (200, none) :=
  ⟨by decide,
    invalid_token_forwarded_unauthenticated "Bearer deadbeef" (fun _ => none)
      (fun _ => false) (fun _ => 200) (by decide) rfl⟩

/-- Claim C3: for every claim set and every `ttl > 0`, verifying the
token produced by `issue(claims, ttl)` returns exactly the issued claims
at any time strictly before `issued_at + ttl`, and returns invalid
(`none`, not an exception) at any time at or after `issued_at + ttl`. -/
theorem verify_issue_roundtrip (secret : Nat) (c : TokenClaims)
    (now ttl t : Nat) (_httl : 0 < ttl) :
    (t < now + ttl → verify secret (issue secret c now ttl) t = some c) ∧
    (now + ttl ≤ t → verify secret (issue secret c now ttl) t = none) := by
  constructor
  · intro hlt
    unfold verify issue
    simp [hlt]
  · intro hge
    unfold verify issue
    simp [not_lt.mpr hge]

/-- Claim C3 (witness): the round trip at a concrete claim set, secret,
issue instant 100 and ttl 50, evaluated just before (120) and at/after
(150) expiry. -/
theorem verify_issue_roundtrip_witness :
    0 < 50 ∧ (120 : Nat) < 100 + 50 ∧ (100 + 50 : Nat) ≤ 150 ∧
    verify 7 (issue 7 ⟨"s", "u", "user", "j1"⟩ 100 50) 120 =
      some ⟨"s", "u", "user", "j1"⟩ ∧
    verify 7 (issue 7 ⟨"s", "u", "user", "j1"⟩ 100 50) 150 = none :=
  ⟨by decide, by decide, by decide,
    (verify_issue_roundtrip 7 ⟨"s", "u", "user", "j1"⟩ 100 50 120
      (by decide)).1 (by decide),
    (verify_issue_roundtrip 7 ⟨"s", "u", "user", "j1"⟩ 100 50 150
      (by decide)).2 (by decide)⟩

/-- Claim C4: once `blacklist_token(jti, user_id, expires_at)` succeeds,
`is_token_blacklisted(jti)` returns true at any instant from insertion up
to (strictly before) the token's natural expiry; and for any `jti` whose
key was never written, `is_token_blacklisted(jti)` returns false (the key
is absent). -/
theorem blacklist_then_lookup :
    (∀ (st : BlacklistStore) (now : Nat) (jti uid : String)
        (expiresAt : Int) (t : Nat), now ≤ t → (t : Int) < expiresAt →
      RedisClient.is_token_blacklisted
        (RedisClient.blacklist_token st now jti uid expiresAt) t jti =
        true) ∧
    (∀ (st : BlacklistStore) (t : Nat) (jti : String),
      (∀ p ∈ st, p.1 ≠ blacklistKey jti) →
      RedisClient.is_token_blacklisted st t jti = false) := by
  constructor
  · intro st now jti uid expiresAt t hnow hbefore
    unfold RedisClient.blacklist_token RedisClient.is_token_blacklisted
    rw [List.find?_cons_of_pos _ (by simp)]
    have h1 : (1 : Int) ≤ expiresAt - now := by omega
    simp only [decide_eq_true_eq]
    unfold blacklistTtl
    rw [max_eq_right h1]
    omega
  · intro st t jti h
    unfold RedisClient.is_token_blacklisted
    have hfind : st.find? (fun p => p.1 = blacklistKey jti) = none :=
      List.find?_eq_none.mpr (fun p hp => by simpa using h p hp)
    rw [hfind]

/-- Claim C4 (witness): the lookup facts at a token blacklisted at
instant 5 with natural expiry 10, probed at instant 7, and at a store
holding no key for "j". -/
theorem blacklist_then_lookup_witness :
    ((5 : Nat) ≤ 7 ∧ ((7 : Nat) : Int) < 10 ∧
      RedisClient.is_token_blacklisted
        (RedisClient.blacklist_token [] 5 "j" "u" 10) 7 "j" = true) ∧
    RedisClient.is_token_blacklisted
      [("blacklist:token:x", ⟨"x", "u", 9⟩, 9)] 7 "j" = false :=
  ⟨⟨by decide, by decide,
     blacklist_then_lookup.1 [] 5 "j" "u" 10 7 (by decide) (by decide)⟩,
   blacklist_then_lookup.2 [("blacklist:token:x", ⟨"x", "u", 9⟩, 9)] 7 "j"
     (by decide)⟩

/-- Claim C8: `blacklist_token(jti, user_id, expires_at)` always inserts
(never rejects), and the stored entry's TTL — the stored expiry instant
minus the insertion instant — equals `max(1, expires_at - now)`: an
`expires_at` in the past gets the 1-second floor, and whenever
`expires_at - now` exceeds one second the TTL is exactly that quantity
(in particular never longer). -/
theorem blacklist_ttl_floor (st : BlacklistStore) (now : Nat)
    (jti uid : String) (expiresAt : Int) :
    ∃ e : Nat,
      RedisClient.storeExpiry
        (RedisClient.blacklist_token st now jti uid expiresAt)
        (blacklistKey jti) = some e ∧
      (e : Int) - now = max 1 (expiresAt - (now : Int)) ∧
      (expiresAt - (now : Int) ≤ 1 → (e : Int) - now = 1) ∧
      (1 < expiresAt - (now : Int) → (e : Int) - now = expiresAt - now) := by
  have hnn : (0 : Int) ≤ blacklistTtl now expiresAt :=
    le_trans zero_le_one (le_max_left _ _)
  have hk : ((now + (blacklistTtl now expiresAt).toNat : Nat) : Int) - now =
      blacklistTtl now expiresAt := by
    omega
  refine ⟨now + (blacklistTtl now expiresAt).toNat, ?_, ?_, ?_, ?_⟩
  · unfold RedisClient.storeExpiry RedisClient.blacklist_token
    rw [List.find?_cons_of_pos _ (by simp)]
    rfl
  · rw [hk]; rfl
  · intro hle
    rw [hk]
    unfold blacklistTtl
    rw [max_eq_left hle]
  · intro hlt
    rw [hk]
    unfold blacklistTtl
    rw [max_eq_right hlt.le]

/-- Claim C8 (witness): a past `expires_at` (3, at insertion instant 10)
is stored with the 1-second floor (expiry 11), and a future one (25)
with TTL exactly `expires_at - now` (expiry 25). -/
theorem blacklist_ttl_floor_witness :
    RedisClient.storeExpiry (RedisClient.blacklist_token [] 10 "j" "u" 3)
      (blacklistKey "j") = some 11 ∧
    RedisClient.storeExpiry (RedisClient.blacklist_token [] 10 "j" "u" 25)
      (blacklistKey "j") = some 25 := by
  constructor
  · obtain ⟨e, h1, -, h3, -⟩ := blacklist_ttl_floor [] 10 "j" "u" 3
    have he : (e : Int) - 10 = 1 := h3 (by decide)
    have he' : e = 11 := by omega
    rw [← he']
    exact h1
  · obtain ⟨e, h1, -, -, h4⟩ := blacklist_ttl_floor [] 10 "j" "u" 25
    have he : (e : Int) - 10 = 25 - 10 := h4 (by decide)
    have he' : e = 25 := by omega
    rw [← he']
    exact h1

/-- Claim C9: an authenticated identity with role admin invoking
`delete_user` on its own id is rejected with the distinct 400
(`InvalidOperation`) outcome rather than 403 (`Forbidden`), even though
the admin role check alone would pass, and the user table is unchanged. -/
theorem delete_user_self_guard (u : AuthedUser) (targetId : String)
    (db : List UserRow) (hrole : u.role = "admin")
    (hself : u.id = targetId) :
    UserController.delete_user (some u) targetId db =
      (UserController.DeleteOutcome.invalidOperation, db) ∧
    UserController.DeleteOutcome.invalidOperation.statusCode = 400 ∧
    UserController.DeleteOutcome.invalidOperation ≠
      UserController.DeleteOutcome.forbidden ∧
    UserController.DeleteOutcome.forbidden.statusCode = 403 := by
  refine ⟨?_, rfl, by decide, rfl⟩
  unfold UserController.delete_user
  simp [hrole, hself]

/-- Claim C9 (witness): an admin with id "a" deactivating "a" over a
one-row table. -/
theorem delete_user_self_guard_witness :
    UserController.delete_user (some ⟨"a", "admin", "a"⟩) "a"
      [⟨"a", true⟩] =
      (UserController.DeleteOutcome.invalidOperation, [⟨"a", true⟩]) :=
  (delete_user_self_guard ⟨"a", "admin", "a"⟩ "a" [⟨"a", true⟩] rfl rfl).1

/-- Claim C5: for every user id, validating the token returned by
`create_refresh_token` (at any instant before its 7-day expiry) returns
that user id; and after `revoke_refresh_token` on that token, the same
validation returns `none`. -/
theorem refresh_token_roundtrip (db : List RefreshRow) (now t : Nat)
    (uid fresh : String) (hfresh : ∀ r ∈ db, r.token ≠ fresh)
    (hexp : t < now + 7 * 24 * 60 * 60) :
    AuthService.validate_refresh_token
      (AuthService.create_refresh_token db now fresh uid).1 t fresh =
      some uid ∧
    AuthService.validate_refresh_token
      (AuthService.revoke_refresh_token
        (AuthService.create_refresh_token db now fresh uid).1 fresh)
      t fresh = none := by
  have hdb : ∀ r ∈ db,
      (fun r => decide (r.token = fresh ∧ r.is_active = true ∧
        t < r.expires_at)) r = false := by
    intro r hr
    simp only [decide_eq_false_iff_not]
    intro hc
    exact hfresh r hr hc.1
  constructor
  · unfold AuthService.validate_refresh_token
      AuthService.create_refresh_token
    rw [find?_append_of_forall_false _ db _ hdb]
    rw [List.find?_cons_of_pos _ (by simp [hexp])]
    rfl
  · unfold AuthService.revoke_refresh_token
    rw [show (AuthService.create_refresh_token db now fresh uid).1 =
        db ++ [⟨fresh, uid, now + 7 * 24 * 60 * 60, true⟩] from rfl]
    rw [deactivateFirst_append_of_forall_ne db _ fresh hfresh]
    unfold AuthService.deactivateFirst
    rw [if_pos rfl]
    unfold AuthService.validate_refresh_token
    rw [find?_append_of_forall_false _ db _ hdb]
    rw [List.find?_cons_of_neg _ (by simp)]
    rfl

/-- Claim C5 (witness): the round trip for user "u" with fresh token
"tok" over an empty table, created at instant 0 and validated at
instant 5. -/
theorem refresh_token_roundtrip_witness :
    AuthService.validate_refresh_token
      (AuthService.create_refresh_token [] 0 "tok" "u").1 5 "tok" =
      some "u" ∧
    AuthService.validate_refresh_token
      (AuthService.revoke_refresh_token
        (AuthService.create_refresh_token [] 0 "tok" "u").1 "tok")
      5 "tok" = none :=
  refresh_token_roundtrip [] 0 5 "u" "tok" (by simp) (by decide)

/-- Claim C10: every successful token-refresh call presenting refresh
token `oldToken` stores a fresh refresh token and then revokes
`oldToken`, so that `validate_refresh_token(oldToken)` returns `none` at
every subsequent instant: refresh tokens are single-use (rotation).
`huniq` reflects the unique constraint on the `token` column and `hne`
the freshness of the generated `uuid4` token. -/
theorem refresh_rotation_single_use (db : List RefreshRow)
    (users : List UserRow) (now : Nat) (oldToken fresh uid : String)
    (hval : AuthService.validate_refresh_token db now oldToken = some uid)
    (huser : (users.find? (fun r => r.id = uid)).isSome = true)
    (huniq : (db.filter (fun r => r.token = oldToken)).length ≤ 1)
    (hne : fresh ≠ oldToken) :
    ∃ db', AuthController.refresh_token db users now oldToken fresh =
        some (fresh, db') ∧
      ∀ t, AuthService.validate_refresh_token db' t oldToken = none := by
  obtain ⟨u, hu⟩ := Option.isSome_iff_exists.mp huser
  refine ⟨AuthService.revoke_refresh_token
    (AuthService.create_refresh_token db now fresh uid).1 oldToken,
    ?_, ?_⟩
  · simp [AuthController.refresh_token, AuthService.create_refresh_token,
      hval, hu]
  · intro t
    have hrow : ([⟨fresh, uid, now + 7 * 24 * 60 * 60, true⟩] :
        List RefreshRow).filter (fun r => r.token = oldToken) = [] := by
      simp [hne]
    have hcount : ((db ++ ([⟨fresh, uid, now + 7 * 24 * 60 * 60, true⟩] :
        List RefreshRow)).filter (fun r => r.token = oldToken)).length ≤ 1 := by
      rw [List.filter_append, hrow, List.append_nil]
      exact huniq
    have hinact := deactivateFirst_inactive
      (db ++ ([⟨fresh, uid, now + 7 * 24 * 60 * 60, true⟩] : List RefreshRow))
      oldToken hcount
    unfold AuthService.validate_refresh_token
    rw [Option.map_eq_none']
    apply List.find?_eq_none.mpr
    intro r hr
    simp only [decide_eq_true_eq, not_and]
    intro htok hact
    have hfalse := hinact r hr htok
    rw [hact] at hfalse
    cases hfalse

/-- Claim C10 (witness): rotation at a one-row table: refreshing with
"old" stores "new" and leaves "old" invalid at every later instant. -/
theorem refresh_rotation_single_use_witness :
    ∃ db', AuthController.refresh_token
        [⟨"old", "u", 100, true⟩] [⟨"u", true⟩] 50 "old" "new" =
        some ("new", db') ∧
      ∀ t, AuthService.validate_refresh_token db' t "old" = none :=
  refresh_rotation_single_use [⟨"old", "u", 100, true⟩] [⟨"u", true⟩] 50
    "old" "new" "u" (by decide) (by decide) (by decide) (by decide)
